import Mathlib

/-!
Operator console of the tomography reconstruction front-end

A shallow embedding of `UI/reconUI.h`, the form-builder generated header that
declares the five top-level window classes of the application (`mainWindow`, `RunBox`,
`resDialog`, `MyDialog3`, `configDialog`), their widgets, their constructor
defaults and their virtual event handlers.

Conventions of the embedding:

* a C++ member function `void C::h(E& event)` becomes a Lean function
  `C.h : C → E → C × E` returning the receiver and the event after the call;
* a widget pointer member becomes a field holding the observable state of the
  widget it points to;
* toolkit types and constants (`wxEvent`, `wxSlider`, `wxSTAY_ON_TOP`, ...) are
  not declared by the repository; they are modelled after the wxWidgets 3.0
  headers, each definition saying so.
-/

namespace ReconUI

/-! ## Toolkit events -/

/-- Toolkit type `wxEvent` (wx/event.h): the identifier of the originating
window and the flag written by `Skip` and read by `GetSkipped`. -/
structure wxEvent where
  m_id : Int
  m_skipped : Bool
deriving DecidableEq, Repr

/-- Toolkit type `wxKeyEvent` (wx/event.h): key code and modifier state. -/
structure wxKeyEvent extends wxEvent where
  m_keyCode : Int
  m_controlDown : Bool
  m_shiftDown : Bool
  m_altDown : Bool
deriving DecidableEq, Repr

/-- Toolkit type `wxCommandEvent` (wx/event.h): integer and string payload. -/
structure wxCommandEvent extends wxEvent where
  m_commandInt : Int
  m_cmdString : String
deriving DecidableEq, Repr

/-- Toolkit type `wxScrollEvent` (wx/event.h): the scroll position travels in
`m_commandInt`, the orientation in `m_extraLong`. -/
structure wxScrollEvent extends wxEvent where
  m_commandInt : Int
  m_extraLong : Int
deriving DecidableEq, Repr

/-- Toolkit type `wxAuiNotebookEvent` (wx/aui/auibook.h): new and previous
page selection. -/
structure wxAuiNotebookEvent extends wxEvent where
  m_nSel : Int
  m_nOldSel : Int
deriving DecidableEq, Repr

/-- Toolkit method `wxEvent::Skip(bool skip = true)`, whose body is
`m_skipped = skip;`, on a key event. -/
def wxKeyEvent.Skip (event : wxKeyEvent) (skip : Bool) : wxKeyEvent :=
  { event with m_skipped := skip }

/-- Toolkit method `wxEvent::Skip(bool skip = true)` on a command event. -/
def wxCommandEvent.Skip (event : wxCommandEvent) (skip : Bool) : wxCommandEvent :=
  { event with m_skipped := skip }

/-- Toolkit method `wxEvent::Skip(bool skip = true)` on a scroll event. -/
def wxScrollEvent.Skip (event : wxScrollEvent) (skip : Bool) : wxScrollEvent :=
  { event with m_skipped := skip }

/-- Toolkit method `wxEvent::Skip(bool skip = true)` on a notebook event. -/
def wxAuiNotebookEvent.Skip (event : wxAuiNotebookEvent) (skip : Bool) :
    wxAuiNotebookEvent :=
  { event with m_skipped := skip }

/-- Toolkit method `wxEvent::GetSkipped()` on a key event. -/
def wxKeyEvent.GetSkipped (event : wxKeyEvent) : Bool := event.m_skipped

/-- Toolkit method `wxEvent::GetSkipped()` on a command event. -/
def wxCommandEvent.GetSkipped (event : wxCommandEvent) : Bool := event.m_skipped

/-- Toolkit method `wxEvent::GetSkipped()` on a scroll event. -/
def wxScrollEvent.GetSkipped (event : wxScrollEvent) : Bool := event.m_skipped

/-- Toolkit method `wxEvent::GetSkipped()` on a notebook event. -/
def wxAuiNotebookEvent.GetSkipped (event : wxAuiNotebookEvent) : Bool :=
  event.m_skipped

/-! ## Toolkit widgets -/

/-- Toolkit widget `wxSlider`: position, range and enabled state. -/
structure wxSlider where
  m_value : Int
  m_minValue : Int
  m_maxValue : Int
  m_isEnabled : Bool
deriving DecidableEq, Repr

/-- Toolkit widget `wxCheckBox`: checked state and enabled state. -/
structure wxCheckBox where
  m_checked : Bool
  m_isEnabled : Bool
deriving DecidableEq, Repr

/-- Toolkit widget `wxStaticText`: the label shown. -/
structure wxStaticText where
  m_label : String
deriving DecidableEq, Repr

/-- Toolkit widget `wxTextCtrl`: the text held. -/
structure wxTextCtrl where
  m_value : String
deriving DecidableEq, Repr

/-- Toolkit widget `wxButton`: label and enabled state. -/
structure wxButton where
  m_label : String
  m_isEnabled : Bool
deriving DecidableEq, Repr

/-- Toolkit widget `wxChoice`: the entries and the selected index. -/
structure wxChoice where
  m_strings : List String
  m_selection : Int
deriving DecidableEq, Repr

/-- Toolkit object `wxMenu`: title and item labels. -/
structure wxMenu where
  m_title : String
  m_items : List String
deriving DecidableEq, Repr

/-- Toolkit object `wxMenuBar`: the titles of the attached menus. -/
structure wxMenuBar where
  m_titles : List String
deriving DecidableEq, Repr

/-- Toolkit widget `wxToolBar`: enabled state. -/
structure wxToolBar where
  m_isEnabled : Bool
deriving DecidableEq, Repr

/-- Toolkit widget `wxPanel`: enabled state. -/
structure wxPanel where
  m_isEnabled : Bool
deriving DecidableEq, Repr

/-- Toolkit widget `wxStatusBar`: the text shown. -/
structure wxStatusBar where
  m_statusText : String
deriving DecidableEq, Repr

/-- Toolkit widget `wxAuiNotebook`: page captions and current page. -/
structure wxAuiNotebook where
  m_captions : List String
  m_curPage : Int
deriving DecidableEq, Repr

/-- Toolkit object `wxAuiManager`: the names of the managed panes. -/
structure wxAuiManager where
  m_panes : List String
deriving DecidableEq, Repr

/-- Toolkit widget `wxGauge`: range and position. -/
structure wxGauge where
  m_rangeMax : Int
  m_gaugePos : Int
deriving DecidableEq, Repr

/-- Toolkit widget `wxListCtrl` in report mode: the rows (one string per
column) and the indices of the selected rows. -/
structure wxListCtrl where
  m_rows : List (List String)
  m_selected : List Nat
deriving DecidableEq, Repr

/-- Toolkit widget `wxStaticLine`: orientation. -/
structure wxStaticLine where
  m_isVertical : Bool
deriving DecidableEq, Repr

/-- Toolkit widget `wxRadioBox`: the choices and the selected index. -/
structure wxRadioBox where
  m_choices : List String
  m_selection : Int
deriving DecidableEq, Repr

/-- Toolkit widget `wxGrid`: the cell texts, row by row. -/
structure wxGrid where
  m_cells : List (List String)
deriving DecidableEq, Repr

/-- Toolkit method `wxSlider::GetValue()`. -/
def wxSlider.GetValue (s : wxSlider) : Int := s.m_value

/-- Toolkit method `wxWindow::IsEnabled()` on a slider. -/
def wxSlider.IsEnabled (s : wxSlider) : Bool := s.m_isEnabled

/-- Toolkit method `wxCheckBox::GetValue()`. -/
def wxCheckBox.GetValue (c : wxCheckBox) : Bool := c.m_checked

/-- Toolkit method `wxCheckBox::SetValue(bool)`. -/
def wxCheckBox.SetValue (c : wxCheckBox) (state : Bool) : wxCheckBox :=
  { c with m_checked := state }

/-- Toolkit method `wxTextCtrl::SetValue(const wxString&)`. -/
def wxTextCtrl.SetValue (_t : wxTextCtrl) (value : String) : wxTextCtrl :=
  { m_value := value }

/-- Toolkit method `wxListCtrl::GetItemCount()`. -/
def wxListCtrl.GetItemCount (l : wxListCtrl) : Nat := l.m_rows.length

/-! ## The generated form classes -/

/-- Class `mainWindow` (derives from `wxFrame`): its widget members, in declaration order. -/
structure mainWindow where
  m_menubar1 : wxMenuBar
  file : wxMenu
  config : wxMenu
  calibration : wxMenu
  help : wxMenu
  optionBox : wxChoice
  navToolbar : wxToolBar
  distanceLabel : wxStaticText
  distanceValue : wxTextCtrl
  autoFocus : wxButton
  stepLabel : wxStaticText
  stepVal : wxStaticText
  stepUnits : wxStaticText
  stepSlider : wxSlider
  autoLight : wxButton
  windowLabel : wxStaticText
  windowVal : wxStaticText
  windowSlider : wxSlider
  levelLabel : wxStaticText
  levelVal : wxStaticText
  levelSlider : wxSlider
  zoomLabel : wxStaticText
  zoomVal : wxStaticText
  zoomUnits : wxStaticText
  zoomSlider : wxSlider
  autoAll : wxButton
  vertFlip : wxCheckBox
  horFlip : wxCheckBox
  logView : wxCheckBox
  projectionView : wxCheckBox
  edgeToolbar : wxToolBar
  xEnhance : wxCheckBox
  yEnhance : wxCheckBox
  absEnhance : wxCheckBox
  ratioLabel : wxStaticText
  ratioValue : wxStaticText
  resetEnhance : wxButton
  enhanceSlider : wxSlider
  scanToolbar : wxToolBar
  scanVertEnable : wxCheckBox
  scanVertValue : wxStaticText
  resetScanVert : wxButton
  scanVertSlider : wxSlider
  scanHorEnable : wxCheckBox
  scanHorValue : wxStaticText
  resetScanHor : wxButton
  scanHorSlider : wxSlider
  noiseToolbar : wxToolBar
  outlierEnable : wxCheckBox
  noiseMaxVal : wxStaticText
  resetNoiseMax : wxButton
  noiseMaxSlider : wxSlider
  m_panel10 : wxPanel
  m_statusBar1 : wxStatusBar
  m_auinotebook6 : wxAuiNotebook
  m_textCtrl8 : wxTextCtrl
  m_mgr : wxAuiManager
deriving DecidableEq, Repr

/-- Class `RunBox` (derives from `wxDialog`): its widget members, in declaration order. -/
structure RunBox where
  m_gauge2 : wxGauge
deriving DecidableEq, Repr

/-- Class `resDialog` (derives from `wxDialog`): its widget members, in declaration order. -/
structure resDialog where
  m_listCtrl : wxListCtrl
  addNew : wxButton
  remove : wxButton
  m_staticline3 : wxStaticLine
  ok : wxButton
  cancel : wxButton
deriving DecidableEq, Repr

/-- Class `configDialog` (derives from `wxFrame`): its widget members, in declaration order. -/
structure configDialog where
  m_staticText3 : wxStaticText
  sliceThickness : wxTextCtrl
  m_panel4 : wxPanel
  m_panel5 : wxPanel
  m_staticText6 : wxStaticText
  orientation : wxRadioBox
  m_staticText5 : wxStaticText
  rotationEnabled : wxRadioBox
  m_staticText13 : wxStaticText
  m_staticText9 : wxStaticText
  pixelWidth : wxTextCtrl
  m_staticText10 : wxStaticText
  pixelHeight : wxTextCtrl
  m_staticText11 : wxStaticText
  pitchHeight : wxTextCtrl
  m_staticText12 : wxStaticText
  pitchWidth : wxTextCtrl
  m_staticText14 : wxStaticText
  m_grid1 : wxGrid
  loadConfig : wxButton
  saveConfig : wxButton
  ok : wxButton
  cancel : wxButton
deriving DecidableEq, Repr

/-- Handler `mainWindow::onKeyDown`, whose body is `event.Skip();`. -/
def mainWindow.onKeyDown (self : mainWindow) (event : wxKeyEvent) : mainWindow × wxKeyEvent :=
  (self, event.Skip true)

/-- Handler `mainWindow::onKeyUp`, whose body is `event.Skip();`. -/
def mainWindow.onKeyUp (self : mainWindow) (event : wxKeyEvent) : mainWindow × wxKeyEvent :=
  (self, event.Skip true)

/-- Handler `mainWindow::onNew`, whose body is `event.Skip();`. -/
def mainWindow.onNew (self : mainWindow) (event : wxCommandEvent) : mainWindow × wxCommandEvent :=
  (self, event.Skip true)

/-- Handler `mainWindow::onOpen`, whose body is `event.Skip();`. -/
def mainWindow.onOpen (self : mainWindow) (event : wxCommandEvent) : mainWindow × wxCommandEvent :=
  (self, event.Skip true)

/-- Handler `mainWindow::onQuit`, whose body is `event.Skip();`. -/
def mainWindow.onQuit (self : mainWindow) (event : wxCommandEvent) : mainWindow × wxCommandEvent :=
  (self, event.Skip true)

/-- Handler `mainWindow::onConfig`, whose body is `event.Skip();`. -/
def mainWindow.onConfig (self : mainWindow) (event : wxCommandEvent) : mainWindow × wxCommandEvent :=
  (self, event.Skip true)

/-- Handler `mainWindow::onGainSelect`, whose body is `event.Skip();`. -/
def mainWindow.onGainSelect (self : mainWindow) (event : wxCommandEvent) : mainWindow × wxCommandEvent :=
  (self, event.Skip true)

/-- Handler `mainWindow::onResList`, whose body is `event.Skip();`. -/
def mainWindow.onResList (self : mainWindow) (event : wxCommandEvent) : mainWindow × wxCommandEvent :=
  (self, event.Skip true)

/-- Handler `mainWindow::onContList`, whose body is `event.Skip();`. -/
def mainWindow.onContList (self : mainWindow) (event : wxCommandEvent) : mainWindow × wxCommandEvent :=
  (self, event.Skip true)

/-- Handler `mainWindow::onRunTest`, whose body is `event.Skip();`. -/
def mainWindow.onRunTest (self : mainWindow) (event : wxCommandEvent) : mainWindow × wxCommandEvent :=
  (self, event.Skip true)

/-- Handler `mainWindow::onTestGeo`, whose body is `event.Skip();`. -/
def mainWindow.onTestGeo (self : mainWindow) (event : wxCommandEvent) : mainWindow × wxCommandEvent :=
  (self, event.Skip true)

/-- Handler `mainWindow::onAutoGeo`, whose body is `event.Skip();`. -/
def mainWindow.onAutoGeo (self : mainWindow) (event : wxCommandEvent) : mainWindow × wxCommandEvent :=
  (self, event.Skip true)

/-- Handler `mainWindow::onAbout`, whose body is `event.Skip();`. -/
def mainWindow.onAbout (self : mainWindow) (event : wxCommandEvent) : mainWindow × wxCommandEvent :=
  (self, event.Skip true)

/-- Handler `mainWindow::onToolbarChoice`, whose body is `event.Skip();`. -/
def mainWindow.onToolbarChoice (self : mainWindow) (event : wxCommandEvent) : mainWindow × wxCommandEvent :=
  (self, event.Skip true)

/-- Handler `mainWindow::onDistance`, whose body is `event.Skip();`. -/
def mainWindow.onDistance (self : mainWindow) (event : wxCommandEvent) : mainWindow × wxCommandEvent :=
  (self, event.Skip true)

/-- Handler `mainWindow::onAutoFocus`, whose body is `event.Skip();`. -/
def mainWindow.onAutoFocus (self : mainWindow) (event : wxCommandEvent) : mainWindow × wxCommandEvent :=
  (self, event.Skip true)

/-- Handler `mainWindow::onStepSlider`, whose body is `event.Skip();`. -/
def mainWindow.onStepSlider (self : mainWindow) (event : wxScrollEvent) : mainWindow × wxScrollEvent :=
  (self, event.Skip true)

/-- Handler `mainWindow::onAutoLight`, whose body is `event.Skip();`. -/
def mainWindow.onAutoLight (self : mainWindow) (event : wxCommandEvent) : mainWindow × wxCommandEvent :=
  (self, event.Skip true)

/-- Handler `mainWindow::onWindowSlider`, whose body is `event.Skip();`. -/
def mainWindow.onWindowSlider (self : mainWindow) (event : wxScrollEvent) : mainWindow × wxScrollEvent :=
  (self, event.Skip true)

/-- Handler `mainWindow::onLevelSlider`, whose body is `event.Skip();`. -/
def mainWindow.onLevelSlider (self : mainWindow) (event : wxScrollEvent) : mainWindow × wxScrollEvent :=
  (self, event.Skip true)

/-- Handler `mainWindow::onZoomSlider`, whose body is `event.Skip();`. -/
def mainWindow.onZoomSlider (self : mainWindow) (event : wxScrollEvent) : mainWindow × wxScrollEvent :=
  (self, event.Skip true)

/-- Handler `mainWindow::onAutoAll`, whose body is `event.Skip();`. -/
def mainWindow.onAutoAll (self : mainWindow) (event : wxCommandEvent) : mainWindow × wxCommandEvent :=
  (self, event.Skip true)

/-- Handler `mainWindow::onVertFlip`, whose body is `event.Skip();`. -/
def mainWindow.onVertFlip (self : mainWindow) (event : wxCommandEvent) : mainWindow × wxCommandEvent :=
  (self, event.Skip true)

/-- Handler `mainWindow::onHorFlip`, whose body is `event.Skip();`. -/
def mainWindow.onHorFlip (self : mainWindow) (event : wxCommandEvent) : mainWindow × wxCommandEvent :=
  (self, event.Skip true)

/-- Handler `mainWindow::onLogView`, whose body is `event.Skip();`. -/
def mainWindow.onLogView (self : mainWindow) (event : wxCommandEvent) : mainWindow × wxCommandEvent :=
  (self, event.Skip true)

/-- Handler `mainWindow::onProjectionView`, whose body is `event.Skip();`. -/
def mainWindow.onProjectionView (self : mainWindow) (event : wxCommandEvent) : mainWindow × wxCommandEvent :=
  (self, event.Skip true)

/-- Handler `mainWindow::onXEnhance`, whose body is `event.Skip();`. -/
def mainWindow.onXEnhance (self : mainWindow) (event : wxCommandEvent) : mainWindow × wxCommandEvent :=
  (self, event.Skip true)

/-- Handler `mainWindow::onYEnhance`, whose body is `event.Skip();`. -/
def mainWindow.onYEnhance (self : mainWindow) (event : wxCommandEvent) : mainWindow × wxCommandEvent :=
  (self, event.Skip true)

/-- Handler `mainWindow::onAbsEnhance`, whose body is `event.Skip();`. -/
def mainWindow.onAbsEnhance (self : mainWindow) (event : wxCommandEvent) : mainWindow × wxCommandEvent :=
  (self, event.Skip true)

/-- Handler `mainWindow::onResetEnhance`, whose body is `event.Skip();`. -/
def mainWindow.onResetEnhance (self : mainWindow) (event : wxCommandEvent) : mainWindow × wxCommandEvent :=
  (self, event.Skip true)

/-- Handler `mainWindow::onEnhanceRatio`, whose body is `event.Skip();`. -/
def mainWindow.onEnhanceRatio (self : mainWindow) (event : wxScrollEvent) : mainWindow × wxScrollEvent :=
  (self, event.Skip true)

/-- Handler `mainWindow::onScanVertEnable`, whose body is `event.Skip();`. -/
def mainWindow.onScanVertEnable (self : mainWindow) (event : wxCommandEvent) : mainWindow × wxCommandEvent :=
  (self, event.Skip true)

/-- Handler `mainWindow::onResetScanVert`, whose body is `event.Skip();`. -/
def mainWindow.onResetScanVert (self : mainWindow) (event : wxCommandEvent) : mainWindow × wxCommandEvent :=
  (self, event.Skip true)

/-- Handler `mainWindow::onScanVert`, whose body is `event.Skip();`. -/
def mainWindow.onScanVert (self : mainWindow) (event : wxScrollEvent) : mainWindow × wxScrollEvent :=
  (self, event.Skip true)

/-- Handler `mainWindow::onScanHorEnable`, whose body is `event.Skip();`. -/
def mainWindow.onScanHorEnable (self : mainWindow) (event : wxCommandEvent) : mainWindow × wxCommandEvent :=
  (self, event.Skip true)

/-- Handler `mainWindow::onResetScanHor`, whose body is `event.Skip();`. -/
def mainWindow.onResetScanHor (self : mainWindow) (event : wxCommandEvent) : mainWindow × wxCommandEvent :=
  (self, event.Skip true)

/-- Handler `mainWindow::onScanHor`, whose body is `event.Skip();`. -/
def mainWindow.onScanHor (self : mainWindow) (event : wxScrollEvent) : mainWindow × wxScrollEvent :=
  (self, event.Skip true)

/-- Handler `mainWindow::onNoiseMaxEnable`, whose body is `event.Skip();`. -/
def mainWindow.onNoiseMaxEnable (self : mainWindow) (event : wxCommandEvent) : mainWindow × wxCommandEvent :=
  (self, event.Skip true)

/-- Handler `mainWindow::onResetNoiseMax`, whose body is `event.Skip();`. -/
def mainWindow.onResetNoiseMax (self : mainWindow) (event : wxCommandEvent) : mainWindow × wxCommandEvent :=
  (self, event.Skip true)

/-- Handler `mainWindow::onNoiseMax`, whose body is `event.Skip();`. -/
def mainWindow.onNoiseMax (self : mainWindow) (event : wxScrollEvent) : mainWindow × wxScrollEvent :=
  (self, event.Skip true)

/-- Handler `mainWindow::onPageChange`, whose body is `event.Skip();`. -/
def mainWindow.onPageChange (self : mainWindow) (event : wxAuiNotebookEvent) : mainWindow × wxAuiNotebookEvent :=
  (self, event.Skip true)

/-- Handler `resDialog::onAddNew`, whose body is `event.Skip();`. -/
def resDialog.onAddNew (self : resDialog) (event : wxCommandEvent) : resDialog × wxCommandEvent :=
  (self, event.Skip true)

/-- Handler `resDialog::onRemove`, whose body is `event.Skip();`. -/
def resDialog.onRemove (self : resDialog) (event : wxCommandEvent) : resDialog × wxCommandEvent :=
  (self, event.Skip true)

/-- Handler `resDialog::onOk`, whose body is `event.Skip();`. -/
def resDialog.onOk (self : resDialog) (event : wxCommandEvent) : resDialog × wxCommandEvent :=
  (self, event.Skip true)

/-- Handler `resDialog::onCancel`, whose body is `event.Skip();`. -/
def resDialog.onCancel (self : resDialog) (event : wxCommandEvent) : resDialog × wxCommandEvent :=
  (self, event.Skip true)

/-- Handler `configDialog::onLoad`, whose body is `event.Skip();`. -/
def configDialog.onLoad (self : configDialog) (event : wxCommandEvent) : configDialog × wxCommandEvent :=
  (self, event.Skip true)

/-- Handler `configDialog::onSave`, whose body is `event.Skip();`. -/
def configDialog.onSave (self : configDialog) (event : wxCommandEvent) : configDialog × wxCommandEvent :=
  (self, event.Skip true)

/-- Handler `configDialog::onOK`, whose body is `event.Skip();`. -/
def configDialog.onOK (self : configDialog) (event : wxCommandEvent) : configDialog × wxCommandEvent :=
  (self, event.Skip true)

/-- Handler `configDialog::onCancel`, whose body is `event.Skip();`. -/
def configDialog.onCancel (self : configDialog) (event : wxCommandEvent) : configDialog × wxCommandEvent :=
  (self, event.Skip true)

/-! ## Window styles and base classes -/

/-- Toolkit constant `wxCAPTION` (wx/toplevel.h). -/
def wxCAPTION : Nat := 0x20000000

/-- Toolkit constant `wxCLIP_CHILDREN` (wx/defs.h). -/
def wxCLIP_CHILDREN : Nat := 0x00400000

/-- Toolkit constant `wxTAB_TRAVERSAL` (wx/defs.h). -/
def wxTAB_TRAVERSAL : Nat := 0x00080000

/-- Toolkit constant `wxSTAY_ON_TOP` (wx/toplevel.h). -/
def wxSTAY_ON_TOP : Nat := 0x8000

/-- Toolkit constant `wxCLOSE_BOX` (wx/toplevel.h). -/
def wxCLOSE_BOX : Nat := 0x1000

/-- Toolkit constant `wxSYSTEM_MENU` (wx/toplevel.h). -/
def wxSYSTEM_MENU : Nat := 0x0800

/-- Toolkit constant `wxMINIMIZE_BOX` (wx/toplevel.h). -/
def wxMINIMIZE_BOX : Nat := 0x0400

/-- Toolkit constant `wxMAXIMIZE_BOX` (wx/toplevel.h). -/
def wxMAXIMIZE_BOX : Nat := 0x0200

/-- Toolkit constant `wxRESIZE_BORDER` (wx/toplevel.h). -/
def wxRESIZE_BORDER : Nat := 0x0040

/-- Toolkit constant `wxDEFAULT_FRAME_STYLE` (wx/toplevel.h). -/
def wxDEFAULT_FRAME_STYLE : Nat :=
  wxSYSTEM_MENU ||| wxRESIZE_BORDER ||| wxMINIMIZE_BOX ||| wxMAXIMIZE_BOX |||
    wxCLOSE_BOX ||| wxCAPTION ||| wxCLIP_CHILDREN

/-- Toolkit constant `wxDEFAULT_DIALOG_STYLE` (wx/dialog.h). -/
def wxDEFAULT_DIALOG_STYLE : Nat := wxCAPTION ||| wxSYSTEM_MENU ||| wxCLOSE_BOX

/-- Toolkit method `wxWindow::HasFlag(int flag)`, whose body is
`return (m_windowStyle & flag) != 0;`, on a style word. -/
def HasFlag (style flag : Nat) : Bool := (style &&& flag) != 0

/-- The two toolkit base classes the generated forms derive from. -/
inductive wxTopLevelBase where
  | wxFrame
  | wxDialog
deriving DecidableEq, Repr

/-- Toolkit fact: `ShowModal` is a member of `wxDialog`; `wxFrame` has none. -/
def wxTopLevelBase.hasShowModal : wxTopLevelBase → Bool
  | .wxFrame => false
  | .wxDialog => true

/-- The five classes declared by the header. -/
inductive FormClass where
  | mainWindow
  | RunBox
  | resDialog
  | MyDialog3
  | configDialog
deriving DecidableEq, Repr

/-- The `: public ...` clause of each class declaration. -/
def FormClass.base : FormClass → wxTopLevelBase
  | .mainWindow => .wxFrame
  | .RunBox => .wxDialog
  | .resDialog => .wxDialog
  | .MyDialog3 => .wxDialog
  | .configDialog => .wxFrame

/-- The default value of the `long style` parameter of each constructor. -/
def FormClass.defaultStyle : FormClass → Nat
  | .mainWindow => wxDEFAULT_FRAME_STYLE ||| wxTAB_TRAVERSAL
  | .RunBox => wxDEFAULT_DIALOG_STYLE ||| wxSTAY_ON_TOP
  | .resDialog => wxDEFAULT_DIALOG_STYLE
  | .MyDialog3 => wxDEFAULT_DIALOG_STYLE
  | .configDialog => wxDEFAULT_FRAME_STYLE ||| wxTAB_TRAVERSAL

/-- A class can be shown modally when its base class offers `ShowModal`. -/
def FormClass.canShowModal (c : FormClass) : Bool := c.base.hasShowModal

/-- A RunBox style word keeps the window above the others. -/
def staysOnTop (style : Nat) : Bool := HasFlag style wxSTAY_ON_TOP

/-- A style word lets the user close the window through its close box. -/
def userClosable (style : Nat) : Bool := HasFlag style wxCLOSE_BOX


/-! ## The handler tables -/

/-- The four event classes that occur as handler parameters in the header. -/
inductive EventKind where
  | key
  | command
  | scroll
  | notebook
deriving DecidableEq, Repr

/-- The event class named by a kind. -/
def EventKind.Ev : EventKind → Type
  | .key => wxKeyEvent
  | .command => wxCommandEvent
  | .scroll => wxScrollEvent
  | .notebook => wxAuiNotebookEvent

/-- Toolkit method `wxEvent::Skip(bool)` on an event of any kind. -/
def EventKind.Skip : (k : EventKind) → k.Ev → Bool → k.Ev
  | .key => wxKeyEvent.Skip
  | .command => wxCommandEvent.Skip
  | .scroll => wxScrollEvent.Skip
  | .notebook => wxAuiNotebookEvent.Skip

/-- Toolkit method `wxEvent::GetSkipped()` on an event of any kind. -/
def EventKind.GetSkipped : (k : EventKind) → k.Ev → Bool
  | .key => wxKeyEvent.GetSkipped
  | .command => wxCommandEvent.GetSkipped
  | .scroll => wxScrollEvent.GetSkipped
  | .notebook => wxAuiNotebookEvent.GetSkipped

/-- The virtual event handlers declared by `mainWindow`, in declaration order. -/
inductive mainWindow.Handler where
  | onKeyDown
  | onKeyUp
  | onNew
  | onOpen
  | onQuit
  | onConfig
  | onGainSelect
  | onResList
  | onContList
  | onRunTest
  | onTestGeo
  | onAutoGeo
  | onAbout
  | onToolbarChoice
  | onDistance
  | onAutoFocus
  | onStepSlider
  | onAutoLight
  | onWindowSlider
  | onLevelSlider
  | onZoomSlider
  | onAutoAll
  | onVertFlip
  | onHorFlip
  | onLogView
  | onProjectionView
  | onXEnhance
  | onYEnhance
  | onAbsEnhance
  | onResetEnhance
  | onEnhanceRatio
  | onScanVertEnable
  | onResetScanVert
  | onScanVert
  | onScanHorEnable
  | onResetScanHor
  | onScanHor
  | onNoiseMaxEnable
  | onResetNoiseMax
  | onNoiseMax
  | onPageChange
deriving DecidableEq, Repr

/-- The event class of each `mainWindow` handler's parameter. -/
def mainWindow.Handler.kind : mainWindow.Handler → EventKind
  | .onKeyDown => .key
  | .onKeyUp => .key
  | .onNew => .command
  | .onOpen => .command
  | .onQuit => .command
  | .onConfig => .command
  | .onGainSelect => .command
  | .onResList => .command
  | .onContList => .command
  | .onRunTest => .command
  | .onTestGeo => .command
  | .onAutoGeo => .command
  | .onAbout => .command
  | .onToolbarChoice => .command
  | .onDistance => .command
  | .onAutoFocus => .command
  | .onStepSlider => .scroll
  | .onAutoLight => .command
  | .onWindowSlider => .scroll
  | .onLevelSlider => .scroll
  | .onZoomSlider => .scroll
  | .onAutoAll => .command
  | .onVertFlip => .command
  | .onHorFlip => .command
  | .onLogView => .command
  | .onProjectionView => .command
  | .onXEnhance => .command
  | .onYEnhance => .command
  | .onAbsEnhance => .command
  | .onResetEnhance => .command
  | .onEnhanceRatio => .scroll
  | .onScanVertEnable => .command
  | .onResetScanVert => .command
  | .onScanVert => .scroll
  | .onScanHorEnable => .command
  | .onResetScanHor => .command
  | .onScanHor => .scroll
  | .onNoiseMaxEnable => .command
  | .onResetNoiseMax => .command
  | .onNoiseMax => .scroll
  | .onPageChange => .notebook

/-- Virtual dispatch on the base class `mainWindow`: the body run for each handler. -/
def mainWindow.Handler.run : (h : mainWindow.Handler) → mainWindow → h.kind.Ev → mainWindow × h.kind.Ev
  | .onKeyDown => mainWindow.onKeyDown
  | .onKeyUp => mainWindow.onKeyUp
  | .onNew => mainWindow.onNew
  | .onOpen => mainWindow.onOpen
  | .onQuit => mainWindow.onQuit
  | .onConfig => mainWindow.onConfig
  | .onGainSelect => mainWindow.onGainSelect
  | .onResList => mainWindow.onResList
  | .onContList => mainWindow.onContList
  | .onRunTest => mainWindow.onRunTest
  | .onTestGeo => mainWindow.onTestGeo
  | .onAutoGeo => mainWindow.onAutoGeo
  | .onAbout => mainWindow.onAbout
  | .onToolbarChoice => mainWindow.onToolbarChoice
  | .onDistance => mainWindow.onDistance
  | .onAutoFocus => mainWindow.onAutoFocus
  | .onStepSlider => mainWindow.onStepSlider
  | .onAutoLight => mainWindow.onAutoLight
  | .onWindowSlider => mainWindow.onWindowSlider
  | .onLevelSlider => mainWindow.onLevelSlider
  | .onZoomSlider => mainWindow.onZoomSlider
  | .onAutoAll => mainWindow.onAutoAll
  | .onVertFlip => mainWindow.onVertFlip
  | .onHorFlip => mainWindow.onHorFlip
  | .onLogView => mainWindow.onLogView
  | .onProjectionView => mainWindow.onProjectionView
  | .onXEnhance => mainWindow.onXEnhance
  | .onYEnhance => mainWindow.onYEnhance
  | .onAbsEnhance => mainWindow.onAbsEnhance
  | .onResetEnhance => mainWindow.onResetEnhance
  | .onEnhanceRatio => mainWindow.onEnhanceRatio
  | .onScanVertEnable => mainWindow.onScanVertEnable
  | .onResetScanVert => mainWindow.onResetScanVert
  | .onScanVert => mainWindow.onScanVert
  | .onScanHorEnable => mainWindow.onScanHorEnable
  | .onResetScanHor => mainWindow.onResetScanHor
  | .onScanHor => mainWindow.onScanHor
  | .onNoiseMaxEnable => mainWindow.onNoiseMaxEnable
  | .onResetNoiseMax => mainWindow.onResetNoiseMax
  | .onNoiseMax => mainWindow.onNoiseMax
  | .onPageChange => mainWindow.onPageChange

/-- Every handler of `mainWindow`, in declaration order. -/
def mainWindow.Handler.all : List mainWindow.Handler :=
  [.onKeyDown, .onKeyUp, .onNew, .onOpen, .onQuit, .onConfig, .onGainSelect,
    .onResList, .onContList, .onRunTest, .onTestGeo, .onAutoGeo, .onAbout,
    .onToolbarChoice, .onDistance, .onAutoFocus, .onStepSlider, .onAutoLight,
    .onWindowSlider, .onLevelSlider, .onZoomSlider, .onAutoAll, .onVertFlip,
    .onHorFlip, .onLogView, .onProjectionView, .onXEnhance, .onYEnhance, .onAbsEnhance,
    .onResetEnhance, .onEnhanceRatio, .onScanVertEnable, .onResetScanVert, .onScanVert,
    .onScanHorEnable, .onResetScanHor, .onScanHor, .onNoiseMaxEnable, .onResetNoiseMax,
    .onNoiseMax, .onPageChange]

/-- The virtual event handlers declared by `resDialog`, in declaration order. -/
inductive resDialog.Handler where
  | onAddNew
  | onRemove
  | onOk
  | onCancel
deriving DecidableEq, Repr

/-- The event class of each `resDialog` handler's parameter. -/
def resDialog.Handler.kind : resDialog.Handler → EventKind
  | .onAddNew => .command
  | .onRemove => .command
  | .onOk => .command
  | .onCancel => .command

/-- Virtual dispatch on the base class `resDialog`: the body run for each handler. -/
def resDialog.Handler.run : (h : resDialog.Handler) → resDialog → h.kind.Ev → resDialog × h.kind.Ev
  | .onAddNew => resDialog.onAddNew
  | .onRemove => resDialog.onRemove
  | .onOk => resDialog.onOk
  | .onCancel => resDialog.onCancel

/-- Every handler of `resDialog`, in declaration order. -/
def resDialog.Handler.all : List resDialog.Handler :=
  [.onAddNew, .onRemove, .onOk, .onCancel]

/-- The virtual event handlers declared by `configDialog`, in declaration order. -/
inductive configDialog.Handler where
  | onLoad
  | onSave
  | onOK
  | onCancel
deriving DecidableEq, Repr

/-- The event class of each `configDialog` handler's parameter. -/
def configDialog.Handler.kind : configDialog.Handler → EventKind
  | .onLoad => .command
  | .onSave => .command
  | .onOK => .command
  | .onCancel => .command

/-- Virtual dispatch on the base class `configDialog`: the body run for each handler. -/
def configDialog.Handler.run : (h : configDialog.Handler) → configDialog → h.kind.Ev → configDialog × h.kind.Ev
  | .onLoad => configDialog.onLoad
  | .onSave => configDialog.onSave
  | .onOK => configDialog.onOK
  | .onCancel => configDialog.onCancel

/-- Every handler of `configDialog`, in declaration order. -/
def configDialog.Handler.all : List configDialog.Handler :=
  [.onLoad, .onSave, .onOK, .onCancel]

/-! ## Sample states and events -/

/-- A console state in which vertical scan correction is switched on and its
slider stands at 42; every other control is in a neutral state. -/
def consoleScanVert42 : mainWindow :=
  {
    m_menubar1 := ⟨["File", "Config", "Calibration", "Help"]⟩
    file := ⟨"", []⟩
    config := ⟨"", []⟩
    calibration := ⟨"", []⟩
    help := ⟨"", []⟩
    optionBox := ⟨[], -1⟩
    navToolbar := ⟨true⟩
    distanceLabel := ⟨""⟩
    distanceValue := ⟨""⟩
    autoFocus := ⟨"", true⟩
    stepLabel := ⟨""⟩
    stepVal := ⟨""⟩
    stepUnits := ⟨""⟩
    stepSlider := ⟨0, 0, 100, true⟩
    autoLight := ⟨"", true⟩
    windowLabel := ⟨""⟩
    windowVal := ⟨""⟩
    windowSlider := ⟨0, 0, 100, true⟩
    levelLabel := ⟨""⟩
    levelVal := ⟨""⟩
    levelSlider := ⟨0, 0, 100, true⟩
    zoomLabel := ⟨""⟩
    zoomVal := ⟨""⟩
    zoomUnits := ⟨""⟩
    zoomSlider := ⟨0, 0, 100, true⟩
    autoAll := ⟨"", true⟩
    vertFlip := ⟨false, true⟩
    horFlip := ⟨false, true⟩
    logView := ⟨false, true⟩
    projectionView := ⟨false, true⟩
    edgeToolbar := ⟨true⟩
    xEnhance := ⟨false, true⟩
    yEnhance := ⟨false, true⟩
    absEnhance := ⟨false, true⟩
    ratioLabel := ⟨""⟩
    ratioValue := ⟨""⟩
    resetEnhance := ⟨"", true⟩
    enhanceSlider := ⟨0, 0, 100, true⟩
    scanToolbar := ⟨true⟩
    scanVertEnable := ⟨true, true⟩
    scanVertValue := ⟨"42"⟩
    resetScanVert := ⟨"", true⟩
    scanVertSlider := ⟨42, 0, 100, true⟩
    scanHorEnable := ⟨false, true⟩
    scanHorValue := ⟨""⟩
    resetScanHor := ⟨"", true⟩
    scanHorSlider := ⟨0, 0, 100, true⟩
    noiseToolbar := ⟨true⟩
    outlierEnable := ⟨false, true⟩
    noiseMaxVal := ⟨""⟩
    resetNoiseMax := ⟨"", true⟩
    noiseMaxSlider := ⟨0, 0, 100, true⟩
    m_panel10 := ⟨true⟩
    m_statusBar1 := ⟨""⟩
    m_auinotebook6 := ⟨[], -1⟩
    m_textCtrl8 := ⟨""⟩
    m_mgr := ⟨[]⟩
  }

/-- A resolution-phantom editor whose list is empty. -/
def emptyResDialog : resDialog :=
  {
    m_listCtrl := ⟨[], []⟩
    addNew := ⟨"", true⟩
    remove := ⟨"", true⟩
    m_staticline3 := ⟨false⟩
    ok := ⟨"", true⟩
    cancel := ⟨"", true⟩
  }

/-- A button click: a command event not yet skipped. -/
def clickEvent : wxCommandEvent :=
  { m_id := 1, m_skipped := false, m_commandInt := 0, m_cmdString := "" }

/-- A checkbox click that clears the box: the command integer carries the new
checked state 0. -/
def uncheckEvent : wxCommandEvent :=
  { m_id := 2, m_skipped := false, m_commandInt := 0, m_cmdString := "" }

/-! ## Resettable fields and enable checkboxes of the main window -/

/-- The four fields that own a reset button on the main window
(`resetEnhance`, `resetScanVert`, `resetScanHor`, `resetNoiseMax`). -/
inductive ResettableField where
  | enhanceRatio
  | scanVert
  | scanHor
  | noiseMax
deriving DecidableEq, Repr

/-- The slider that holds the field. -/
def ResettableField.slider : ResettableField → mainWindow → wxSlider
  | .enhanceRatio, w => w.enhanceSlider
  | .scanVert, w => w.scanVertSlider
  | .scanHor, w => w.scanHorSlider
  | .noiseMax, w => w.noiseMaxSlider

/-- Reading the field: the position of its slider. -/
def ResettableField.get (X : ResettableField) (w : mainWindow) : Int :=
  (X.slider w).GetValue

/-- The handler connected to the reset button of the field. -/
def ResettableField.reset :
    ResettableField → mainWindow → wxCommandEvent → mainWindow × wxCommandEvent
  | .enhanceRatio => mainWindow.onResetEnhance
  | .scanVert => mainWindow.onResetScanVert
  | .scanHor => mainWindow.onResetScanHor
  | .noiseMax => mainWindow.onResetNoiseMax

/-- The three enable checkboxes of the main window. -/
inductive EnableCheckbox where
  | scanVertEnable
  | scanHorEnable
  | outlierEnable
deriving DecidableEq, Repr

/-- The checkbox widget. -/
def EnableCheckbox.checkbox : EnableCheckbox → mainWindow → wxCheckBox
  | .scanVertEnable, w => w.scanVertEnable
  | .scanHorEnable, w => w.scanHorEnable
  | .outlierEnable, w => w.outlierEnable

/-- Writing the checkbox widget back into the window. -/
def EnableCheckbox.setCheckbox : EnableCheckbox → mainWindow → wxCheckBox → mainWindow
  | .scanVertEnable, w, c => { w with scanVertEnable := c }
  | .scanHorEnable, w, c => { w with scanHorEnable := c }
  | .outlierEnable, w, c => { w with outlierEnable := c }

/-- The slider the checkbox sits next to. -/
def EnableCheckbox.slider : EnableCheckbox → mainWindow → wxSlider
  | .scanVertEnable, w => w.scanVertSlider
  | .scanHorEnable, w => w.scanHorSlider
  | .outlierEnable, w => w.noiseMaxSlider

/-- The handler connected to the checkbox. -/
def EnableCheckbox.handler :
    EnableCheckbox → mainWindow → wxCommandEvent → mainWindow × wxCommandEvent
  | .scanVertEnable => mainWindow.onScanVertEnable
  | .scanHorEnable => mainWindow.onScanHorEnable
  | .outlierEnable => mainWindow.onNoiseMaxEnable

/-- A user click on an enable checkbox: the toolkit flips the checked state of
the widget and then delivers the command event to the connected handler. -/
def EnableCheckbox.toggle (c : EnableCheckbox) (w : mainWindow)
    (event : wxCommandEvent) : mainWindow × wxCommandEvent :=
  c.handler (c.setCheckbox w ((c.checkbox w).SetValue (!(c.checkbox w).GetValue))) event

/-! ## The composite command of the spec -/

/-- Spec-side reading of "issuing autoFocus and then autoLight": the event and
the window are passed through `onAutoFocus` first and `onAutoLight` second. -/
def autoFocusThenAutoLight (w : mainWindow) (event : wxCommandEvent) :
    mainWindow × wxCommandEvent :=
  mainWindow.onAutoLight (mainWindow.onAutoFocus w event).1
    (mainWindow.onAutoFocus w event).2

/-! ## Keyboard accelerators -/

/-- Toolkit type `wxAcceleratorEntry` (wx/accel.h): modifier flags, key code
and the command identifier the key is bound to. -/
structure wxAcceleratorEntry where
  m_flags : Nat
  m_keyCode : Int
  m_command : Int
deriving DecidableEq, Repr

/-- Toolkit constant `wxACCEL_ALT` (wx/accel.h). -/
def wxACCEL_ALT : Nat := 0x0001

/-- Toolkit constant `wxACCEL_CTRL` (wx/accel.h). -/
def wxACCEL_CTRL : Nat := 0x0002

/-- Toolkit constant `wxACCEL_SHIFT` (wx/accel.h). -/
def wxACCEL_SHIFT : Nat := 0x0004

/-- The accelerator flags that correspond to the modifiers of a key event. -/
def wxKeyEvent.accelFlags (event : wxKeyEvent) : Nat :=
  (if event.m_altDown then wxACCEL_ALT else 0) |||
    (if event.m_controlDown then wxACCEL_CTRL else 0) |||
    (if event.m_shiftDown then wxACCEL_SHIFT else 0)

/-- An accelerator entry matches a key event with the same key and modifiers. -/
def wxAcceleratorEntry.matchesKey (entry : wxAcceleratorEntry)
    (event : wxKeyEvent) : Bool :=
  entry.m_keyCode == event.m_keyCode && entry.m_flags == event.accelFlags

/-- A key event is bound to an accelerator of the table. The header declares no
table, so the table is an argument. -/
def boundToAccelerator (table : List wxAcceleratorEntry) (event : wxKeyEvent) :
    Bool :=
  table.any fun entry => entry.matchesKey event

/-- A key handler forwards the event when it leaves the handler marked as
skipped, which is what makes the toolkit go on looking for a handler. -/
def forwardsKey (handler : mainWindow → wxKeyEvent → mainWindow × wxKeyEvent)
    (w : mainWindow) (event : wxKeyEvent) : Bool :=
  (handler w event).2.GetSkipped

/-- The standard accelerators for New, Open and Quit: Ctrl+N, Ctrl+O, Ctrl+Q,
bound to `wxID_NEW`, `wxID_OPEN`, `wxID_EXIT`. -/
def standardAccelerators : List wxAcceleratorEntry :=
  [ { m_flags := wxACCEL_CTRL, m_keyCode := 78, m_command := 5002 },
    { m_flags := wxACCEL_CTRL, m_keyCode := 79, m_command := 5000 },
    { m_flags := wxACCEL_CTRL, m_keyCode := 81, m_command := 5006 } ]

/-- The key event of Ctrl+N. -/
def ctrlN : wxKeyEvent :=
  { m_id := 0, m_skipped := false, m_keyCode := 78, m_controlDown := true,
    m_shiftDown := false, m_altDown := false }


/-! ## Editing in the configuration window -/

/-- C1, as stated, fails: from the console state with `scanVert = 42` the
handler `onResetScanVert` leaves the field at 42, which is not the reset
value 0. -/
theorem onResetScanVert_leaves_42 :
    ResettableField.scanVert.get
        (ResettableField.scanVert.reset consoleScanVert42 clickEvent).1 = 42 ∧
      (mainWindow.onResetScanVert consoleScanVert42 clickEvent).1.scanVertSlider.GetValue
        = 42 ∧
      ¬ ResettableField.scanVert.get
          (ResettableField.scanVert.reset consoleScanVert42 clickEvent).1 = 0 := by
  decide

/-- C1, amended: for every resettable field X and every console state, the
reset handler of X returns the window exactly as it received it and the event
marked as skipped; so after the call X equals a given value exactly when it
did before the call. -/
theorem reset_handler_keeps_field (X : ResettableField) (w : mainWindow)
    (event : wxCommandEvent) :
    (X.reset w event).1 = w ∧ (X.reset w event).2 = event.Skip true ∧
      X.get (X.reset w event).1 = X.get w ∧
      ∀ d : Int, X.get (X.reset w event).1 = d ↔ X.get w = d := by
  cases X <;> exact ⟨rfl, rfl, rfl, fun _ => Iff.rfl⟩

/-! ## C2: the composite command -/

/-- C2: for every console state and event, `onAutoAll` returns what
`onAutoFocus` followed by `onAutoLight` returns from the same state and event;
and when `onAutoLight` is handed an event of its own, the window it returns is
still the window `onAutoAll` returns. -/
theorem onAutoAll_eq_autoFocus_then_autoLight (w : mainWindow)
    (event other : wxCommandEvent) :
    mainWindow.onAutoAll w event = autoFocusThenAutoLight w event ∧
      (mainWindow.onAutoLight (mainWindow.onAutoFocus w event).1 other).1
        = (mainWindow.onAutoAll w event).1 := by
  exact ⟨rfl, rfl⟩

/-! ## C3: Cancel in the configuration window -/

/-- C4, as stated, fails: the default style word of `RunBox` does not satisfy
"stay-on-top set and close box clear", because its close-box flag is set. -/
theorem runBox_default_style_not_unclosable :
    ¬ (staysOnTop (FormClass.defaultStyle .RunBox) = true ∧
        userClosable (FormClass.defaultStyle .RunBox) = false) := by
  decide

/-- C4, amended: the default style word of `RunBox` has the stay-on-top flag
set and, coming from the default dialog style, also has the close-box, caption
and system-menu flags set. -/
theorem runBox_default_style_flags :
    staysOnTop (FormClass.defaultStyle .RunBox) = true ∧
      userClosable (FormClass.defaultStyle .RunBox) = true ∧
      HasFlag (FormClass.defaultStyle .RunBox) wxCAPTION = true ∧
      HasFlag (FormClass.defaultStyle .RunBox) wxSYSTEM_MENU = true ∧
      FormClass.defaultStyle .RunBox = 0x20009800 := by
  decide

/-! ## C5: key handlers -/

/-- C5, as stated, fails: Ctrl+N is bound to an accelerator of the standard
table, yet `onKeyDown` and `onKeyUp` both forward it. -/
theorem key_handlers_forward_ctrlN :
    boundToAccelerator standardAccelerators ctrlN = true ∧
      forwardsKey mainWindow.onKeyDown consoleScanVert42 ctrlN = true ∧
      forwardsKey mainWindow.onKeyUp consoleScanVert42 ctrlN = true := by
  decide

/-- C5, amended: for every key event delivered to the main window, bound to an
accelerator or not, `onKeyDown` and `onKeyUp` forward the event and leave the
window as it was. -/
theorem key_handlers_forward_every_key (w : mainWindow) (event : wxKeyEvent) :
    forwardsKey mainWindow.onKeyDown w event = true ∧
      forwardsKey mainWindow.onKeyUp w event = true ∧
      (mainWindow.onKeyDown w event).1 = w ∧ (mainWindow.onKeyUp w event).1 = w := by
  exact ⟨rfl, rfl, rfl, rfl⟩

/-! ## C6: the kind of the configuration window -/

/-- C6, as stated, fails: `configDialog` cannot be shown modally, while
`resDialog` and `RunBox` can. -/
theorem configDialog_not_modal :
    ¬ (FormClass.configDialog.canShowModal = true) ∧
      FormClass.resDialog.canShowModal = true ∧
      FormClass.RunBox.canShowModal = true := by
  decide

/-- C6, amended: `configDialog` derives from the frame class, as `mainWindow`
does, and is constructed with the default frame style; `resDialog`, `RunBox`
and `MyDialog3` derive from the dialog class. Hence a class of the header can
be shown modally exactly when it is not `mainWindow` or `configDialog`. -/
theorem configDialog_is_frame :
    FormClass.configDialog.base = .wxFrame ∧
      FormClass.configDialog.base = FormClass.mainWindow.base ∧
      FormClass.configDialog.defaultStyle = wxDEFAULT_FRAME_STYLE ||| wxTAB_TRAVERSAL ∧
      FormClass.resDialog.base = .wxDialog ∧
      FormClass.RunBox.base = .wxDialog ∧
      FormClass.MyDialog3.base = .wxDialog ∧
      ∀ c : FormClass,
        c.canShowModal = true ↔ (c ≠ .mainWindow ∧ c ≠ .configDialog) := by
  refine ⟨rfl, rfl, rfl, rfl, rfl, rfl, ?_⟩
  intro c
  cases c <;> decide

/-! ## C7: Add in the resolution-phantom editor -/

/-- C7, as stated, fails: on the empty list `onAddNew` returns the empty list,
whose length 0 is not the previous length plus one. -/
theorem onAddNew_on_empty_list :
    (resDialog.onAddNew emptyResDialog clickEvent).1.m_listCtrl.m_rows = [] ∧
      (resDialog.onAddNew emptyResDialog clickEvent).1.m_listCtrl.GetItemCount = 0 ∧
      ¬ (resDialog.onAddNew emptyResDialog clickEvent).1.m_listCtrl.GetItemCount
          = emptyResDialog.m_listCtrl.GetItemCount + 1 := by
  decide

/-- C7, amended: for every phantom list shown in the editor, `onAddNew`
returns the editor with the same list (same length, same records in the same
positions, same selection) and the event marked as skipped. -/
theorem onAddNew_keeps_list (d : resDialog) (event : wxCommandEvent) :
    (resDialog.onAddNew d event).1.m_listCtrl.m_rows = d.m_listCtrl.m_rows ∧
      (resDialog.onAddNew d event).1.m_listCtrl.GetItemCount
        = d.m_listCtrl.GetItemCount ∧
      (resDialog.onAddNew d event).1 = d ∧
      (resDialog.onAddNew d event).2 = event.Skip true := by
  exact ⟨rfl, rfl, rfl, rfl⟩

/-! ## C8: enable checkboxes -/

/-- C8, as stated, fails: clearing `scanVertEnable` in the console state where
it is checked leaves `scanVertSlider` enabled while the checkbox reads
false. -/
theorem toggle_scanVertEnable_leaves_slider_enabled :
    (EnableCheckbox.scanVertEnable.checkbox
        (EnableCheckbox.scanVertEnable.toggle consoleScanVert42 uncheckEvent).1).GetValue
      = false ∧
    (EnableCheckbox.scanVertEnable.slider
        (EnableCheckbox.scanVertEnable.toggle consoleScanVert42 uncheckEvent).1).IsEnabled
      = true ∧
    ¬ (EnableCheckbox.scanVertEnable.slider
          (EnableCheckbox.scanVertEnable.toggle consoleScanVert42 uncheckEvent).1).IsEnabled
        = (EnableCheckbox.scanVertEnable.checkbox
          (EnableCheckbox.scanVertEnable.toggle consoleScanVert42 uncheckEvent).1).GetValue := by
  decide

/-- C8, amended: after every toggle of an enable checkbox the checkbox value is
negated while the coupled slider is exactly as before, its enabled state as
well as its stored value; toggling twice restores the checkbox value and still
leaves the slider as it was; the handler alone changes nothing in the
window. -/
theorem toggle_keeps_slider (c : EnableCheckbox) (w : mainWindow)
    (event other : wxCommandEvent) :
    (c.checkbox (c.toggle w event).1).GetValue = !(c.checkbox w).GetValue ∧
      (c.slider (c.toggle w event).1).IsEnabled = (c.slider w).IsEnabled ∧
      (c.slider (c.toggle w event).1).GetValue = (c.slider w).GetValue ∧
      c.slider (c.toggle (c.toggle w event).1 other).1 = c.slider w ∧
      (c.checkbox (c.toggle (c.toggle w event).1 other).1).GetValue
        = (c.checkbox w).GetValue ∧
      (c.handler w event).1 = w := by
  cases c <;>
    exact ⟨rfl, rfl, rfl, rfl, by
      simp [EnableCheckbox.toggle, EnableCheckbox.checkbox, EnableCheckbox.setCheckbox,
        EnableCheckbox.handler, mainWindow.onScanVertEnable, mainWindow.onScanHorEnable,
        mainWindow.onNoiseMaxEnable, wxCheckBox.SetValue, wxCheckBox.GetValue], rfl⟩

/-! ## C10: the default handlers -/

/-- C10: every handler declared by `mainWindow` (41), `resDialog` (4) and
`configDialog` (4) is the function that returns the receiver as it was and the
event with its skipped flag set, a function fixed by the event class alone;
the event it returns reads as skipped, and running a handler on its own result
returns that result again. -/
theorem default_handlers_only_skip :
    (∀ h : mainWindow.Handler,
        h.run = (fun w event => (w, h.kind.Skip event true)) ∧
        ∀ w event, h.kind.GetSkipped (h.run w event).2 = true ∧
          h.run (h.run w event).1 (h.run w event).2 = h.run w event) ∧
      (∀ h : resDialog.Handler,
        h.run = (fun d event => (d, h.kind.Skip event true)) ∧
        ∀ d event, h.kind.GetSkipped (h.run d event).2 = true ∧
          h.run (h.run d event).1 (h.run d event).2 = h.run d event) ∧
      (∀ h : configDialog.Handler,
        h.run = (fun d event => (d, h.kind.Skip event true)) ∧
        ∀ d event, h.kind.GetSkipped (h.run d event).2 = true ∧
          h.run (h.run d event).1 (h.run d event).2 = h.run d event) ∧
      (∀ h : mainWindow.Handler, h ∈ mainWindow.Handler.all) ∧
      (∀ h : resDialog.Handler, h ∈ resDialog.Handler.all) ∧
      (∀ h : configDialog.Handler, h ∈ configDialog.Handler.all) ∧
      mainWindow.Handler.all.length = 41 ∧
      resDialog.Handler.all.length = 4 ∧
      configDialog.Handler.all.length = 4 := by
  refine ⟨?_, ?_, ?_, ?_, ?_, ?_, rfl, rfl, rfl⟩
  · intro h
    cases h <;> exact ⟨rfl, fun _ _ => ⟨rfl, rfl⟩⟩
  · intro h
    cases h <;> exact ⟨rfl, fun _ _ => ⟨rfl, rfl⟩⟩
  · intro h
    cases h <;> exact ⟨rfl, fun _ _ => ⟨rfl, rfl⟩⟩
  · intro h
    cases h <;> decide
  · intro h
    cases h <;> decide
  · intro h
    cases h <;> decide

end ReconUI
